import Mathlib

/-!
Verification development for the vfx-forge-mcp plugin bridge and tool gateway.

The TypeScript sources are shallowly embedded as pure Lean functions:

* `src/bridge/connection.ts` — the WebSocket bridge (`createBridge`): the
  connection slot, the pending-request correlation table, the event fan-out,
  and the reactions `wsOpen`, `wsClose`, `handleMessage`, `sendRequest`,
  `fireTimeout`, `shutdown`.  The closure state of `createBridge` becomes an
  explicit `BridgeState`; promise settlement, timer manipulation and socket
  traffic become an explicit `Effect` list produced by each reaction.
* `src/tools/index.ts` — the tool registry (`registerTools`, `isPluginTool`,
  `handleToolCall`) with each tool's `requiresPlugin` flag.
* `src/index.ts` — the MCP `CallToolRequestSchema` gateway (`callToolRequest`).
* `src/docs/roblox-docs.ts` — the inherited-fallback documentation lookups
  (`getPropertyDocs`, `getMethodDocs`, `getEventDocs`, `getClassDocs`),
  embedded fuel-indexed since their superclass recursion is unbounded in the
  source.

JavaScript `Map`s are modelled as association lists with `Map.get` /
`Map.set` / `Map.delete` semantics (`mapGet`, `mapSet`, `mapDelete`); a real
`Map` never holds a duplicate key, which theorems record as a
`keysNodup` hypothesis where it matters.  `crypto.randomUUID` is modelled by
a process-unique counter (`uuidCounter`), and `setTimeout` handles by a
counter `nextTimerId`; both live in `BridgeState` so that "no id is
generated" and "no timer is allocated" are state-visible facts.
-/

namespace VfxForge

/-- JS `Map.get`: first (unique) binding of a key in the association list. -/
def mapGet {α : Type} (l : List (String × α)) (k : String) : Option α :=
  match l with
  | [] => none
  | (k', v) :: rest => if k' = k then some v else mapGet rest k

/-- JS `Map.set`: replace the binding in place if the key is present,
otherwise append a new binding at the end (JS `Map` preserves insertion
order). -/
def mapSet {α : Type} (l : List (String × α)) (k : String) (v : α) :
    List (String × α) :=
  match l with
  | [] => [(k, v)]
  | (k', v') :: rest =>
    if k' = k then (k, v) :: rest else (k', v') :: mapSet rest k v

/-- JS `Map.delete`: remove the (unique) binding of the key, if present. -/
def mapDelete {α : Type} (l : List (String × α)) (k : String) :
    List (String × α) :=
  match l with
  | [] => []
  | (k', v') :: rest =>
    if k' = k then rest else (k', v') :: mapDelete rest k

/-- JS `Map.size`. -/
def mapSize {α : Type} (l : List (String × α)) : Nat := l.length

/-- A JS `Map` never holds two bindings for the same key. -/
def keysNodup {α : Type} (l : List (String × α)) : Prop :=
  (l.map Prod.fst).Nodup

instance {α : Type} (l : List (String × α)) : Decidable (keysNodup l) := by
  unfold keysNodup; infer_instance

/-- `pat` is a leading segment of `l` (Boolean prefix test on char lists). -/
def listLeads : List Char → List Char → Bool
  | [], _ => true
  | _ :: _, [] => false
  | a :: pas, b :: bs => a = b && listLeads pas bs

/-- `pat` occurs as a contiguous segment of the list. -/
def subSeq (pat : List Char) : List Char → Bool
  | [] => pat.isEmpty
  | c :: rest => listLeads pat (c :: rest) || subSeq pat rest

/-- The string `pat` occurs as a substring of `hay`. -/
def strContains (hay pat : String) : Bool :=
  subSeq pat.data hay.data

/-! ## Message envelopes (`src/types/messages.ts`) -/

/-- Structured error carried by a response envelope (`ErrorInfo`).
`details` is opaque to the bridge and elided. -/
structure ErrorInfo where
  code : String
  message : String
deriving Repr, DecidableEq

/-- Request parameters (`Record<string, unknown>`); the bridge never
inspects them, so the values are kept as opaque strings. -/
abbrev Params := List (String × String)

/-- Result payloads (`unknown` in the source) are opaque to the bridge. -/
abbrev Payload := String

/-- An inbound wire message after `JSON.parse` — the source casts without
validation, so every field the handler might read is optional-shaped.
`params` is `some pv` when a `params` object is present (truthy), with `pv`
the optional `pluginVersion` field inside it. -/
structure InboundMsg where
  type : String
  id : String
  params : Option (Option String)
  result : Option Payload
  error : Option ErrorInfo
  timestamp : Nat
deriving Repr, DecidableEq

/-- The `BridgeResponse` view passed to `pending.resolve(response)`. -/
structure RespView where
  id : String
  result : Option Payload
  error : Option ErrorInfo
  timestamp : Nat
deriving Repr, DecidableEq

/-- Project the response fields out of a parsed inbound message. -/
def respView (m : InboundMsg) : RespView :=
  { id := m.id, result := m.result, error := m.error,
    timestamp := m.timestamp }

/-- An outbound request envelope (`BridgeRequest`). -/
structure BridgeRequest where
  id : String
  method : String
  params : Params
  timestamp : Nat
deriving Repr, DecidableEq

/-- What the bridge writes to a socket: the welcome notice sent on open, or
a serialized request envelope. -/
inductive WirePayload where
  | welcome (serverVersion : String) (timestamp : Nat)
  | request (r : BridgeRequest)
deriving Repr, DecidableEq

/-! ## Bridge errors

Each way the bridge rejects a pending promise constructs a distinct
`new Error(...)`; the constructors keep those conditions distinct, and
`errMessage` gives the exact message string from the source.
`sendFailure` carries the message of the exception thrown by `ws.send`. -/

/-- The error conditions the bridge itself produces. -/
inductive BridgeError where
  | notConnected
  | requestTimeout (method : String)
  | connectionLost
  | shuttingDown
  | sendFailure (err : String)
deriving Repr, DecidableEq

/-- The exact `Error` message string each condition carries in the source. -/
def errMessage : BridgeError → String
  | .notConnected => "Plugin not connected"
  | .requestTimeout method => "Request timeout: " ++ method
  | .connectionLost => "Connection lost"
  | .shuttingDown => "Bridge shutting down"
  | .sendFailure err => err

/-! ## Bridge state (`createBridge` closure state) -/

/-- A correlation-table entry (`PendingRequest` in the source).  The
resolve/reject continuations are identified by the request id (effects refer
to them by id); `method` is what the timeout closure captured, `timerId` the
`setTimeout` handle. -/
structure PendingRequest where
  method : String
  timerId : Nat
deriving Repr, DecidableEq

/-- The connection slot contents (`PluginConnection`).  The
`ServerWebSocket` handle is identified by a numeric id. -/
structure PluginConnection where
  wsId : Nat
  pluginVersion : String
  connectedAt : Nat
deriving Repr, DecidableEq

/-- The mutable closure state of `createBridge`: the connection slot, the
correlation table, the registered event handlers (observers are opaque, only
their count matters), whether `server.stop()` has been called, and the two
allocation counters modelling `setTimeout` handles and `crypto.randomUUID`.
-/
structure BridgeState where
  connection : Option PluginConnection
  pendingRequests : List (String × PendingRequest)
  eventHandlers : Nat
  serverRunning : Bool
  nextTimerId : Nat
  uuidCounter : Nat
deriving Repr, DecidableEq

/-- Observable side effects of one reaction: promise settlements (referring
to the pending request by id, or to a caller promise that never made it into
the table), socket traffic, timer cancellation, observer notification, and
stopping the listening server. -/
inductive Effect where
  | resolveRequest (id : String) (resp : RespView)
  | rejectRequest (id : String) (e : BridgeError)
  | rejectCaller (e : BridgeError)
  | sendWs (wsId : Nat) (payload : WirePayload)
  | closeWs (wsId : Nat) (code : Nat) (reason : String)
  | notifyObserver (idx : Nat) (msg : InboundMsg)
  | clearTimer (timerId : Nat)
  | stopServer
deriving Repr, DecidableEq

/-- `REQUEST_TIMEOUT_MS` from the source. -/
def REQUEST_TIMEOUT_MS : Nat := 30000

/-- `isConnected()`: true iff the connection slot is occupied. -/
def isConnected (st : BridgeState) : Bool :=
  st.connection.isSome

/-- The next `crypto.randomUUID()` value, modelled process-unique. -/
def freshId (st : BridgeState) : String :=
  "uuid-" ++ toString st.uuidCounter

/-- The `websocket.open` handler: closes any pre-existing connection with
code 1000 and reason "New connection established", installs the new
connection (version "unknown", `connectedAt` = now), and sends the welcome
notice to the new socket. -/
def wsOpen (st : BridgeState) (newWsId : Nat) (now : Nat) :
    BridgeState × List Effect :=
  let closeEffects :=
    match st.connection with
    | some conn => [Effect.closeWs conn.wsId 1000 "New connection established"]
    | none => []
  ({ st with
      connection := some { wsId := newWsId, pluginVersion := "unknown",
                           connectedAt := now } },
   closeEffects ++ [Effect.sendWs newWsId (.welcome "0.1.0" now)])

/-- Clear-timer-and-reject effects for every remaining table entry, in table
order — the body of the `for (const [id, pending] of pendingRequests)` loops
in the `close` handler and in `shutdown`. -/
def rejectAllEffects (entries : List (String × PendingRequest))
    (e : BridgeError) : List Effect :=
  match entries with
  | [] => []
  | (id, p) :: rest =>
    Effect.clearTimer p.timerId :: Effect.rejectRequest id e ::
      rejectAllEffects rest e

/-- The `websocket.close` handler: if the closed socket is the active one,
clear the slot and reject every pending request with "Connection lost",
cancelling each timer; a close event for any other socket does nothing. -/
def wsClose (st : BridgeState) (wsId : Nat) : BridgeState × List Effect :=
  match st.connection with
  | some conn =>
    if conn.wsId = wsId then
      ({ st with connection := none, pendingRequests := [] },
       rejectAllEffects st.pendingRequests .connectionLost)
    else (st, [])
  | none => (st, [])

/-- `params.pluginVersion || "unknown"` — a missing or empty version string
falls back to "unknown". -/
def handshakeVersion : Option String → String
  | some v => if v = "" then "unknown" else v
  | none => "unknown"

/-- `handleMessage`: handshake messages from the active socket update only
the slot's version field; a response whose id matches a table entry cancels
its timer, removes it and resolves it with the response; events are fanned
out to every observer; anything else (including unmatched response ids) is
dropped. -/
def handleMessage (st : BridgeState) (msg : InboundMsg) (wsId : Nat) :
    BridgeState × List Effect :=
  if msg.type = "handshake" then
    match st.connection with
    | some conn =>
      if conn.wsId = wsId ∧ msg.params.isSome then
        ({ st with connection := some { conn with
            pluginVersion := handshakeVersion (msg.params.getD none) } }, [])
      else (st, [])
    | none => (st, [])
  else if msg.type = "response" then
    match mapGet st.pendingRequests msg.id with
    | some pending =>
      ({ st with pendingRequests := mapDelete st.pendingRequests msg.id },
       [Effect.clearTimer pending.timerId,
        Effect.resolveRequest msg.id (respView msg)])
    | none => (st, [])
  else if msg.type = "event" then
    (st, (List.range st.eventHandlers).map (Effect.notifyObserver · msg))
  else (st, [])

/-- `sendRequest`: with no connection, reject immediately (no id, no timer,
no table entry).  Otherwise generate a fresh id, build the request envelope,
start the timeout timer, insert the table entry, then attempt the send; a
synchronous send failure (`sendFails`, with the thrown error's message
`sendErr`) cancels the timer, removes the entry and rejects with the send
error. -/
def sendRequest (st : BridgeState) (method : String) (params : Params)
    (now : Nat) (sendFails : Bool) (sendErr : String) :
    BridgeState × List Effect :=
  match st.connection with
  | none => (st, [Effect.rejectCaller .notConnected])
  | some conn =>
    let id := freshId st
    let request : BridgeRequest :=
      { id := id, method := method, params := params, timestamp := now }
    let timerId := st.nextTimerId
    let st1 : BridgeState :=
      { st with uuidCounter := st.uuidCounter + 1,
                nextTimerId := st.nextTimerId + 1,
                pendingRequests :=
                  mapSet st.pendingRequests id
                    { method := method, timerId := timerId } }
    if sendFails then
      ({ st1 with pendingRequests := mapDelete st1.pendingRequests id },
       [Effect.clearTimer timerId,
        Effect.rejectRequest id (.sendFailure sendErr)])
    else
      (st1, [Effect.sendWs conn.wsId (.request request)])

/-- The timeout closure of `sendRequest` firing for request `id`: it deletes
the entry and rejects with "Request timeout: method" (`method` is what the
closure captured).  Every other removal path clears the timer first, so this
reaction only ever runs while the entry is still present. -/
def fireTimeout (st : BridgeState) (id : String) (method : String) :
    BridgeState × List Effect :=
  ({ st with pendingRequests := mapDelete st.pendingRequests id },
   [Effect.rejectRequest id (.requestTimeout method)])

/-- `shutdown`: reject every pending request with "Bridge shutting down"
(cancelling each timer), close the active connection if any with code 1000
and reason "Server shutting down", clear the slot, and stop the server. -/
def shutdown (st : BridgeState) : BridgeState × List Effect :=
  let closeEffects :=
    match st.connection with
    | some conn => [Effect.closeWs conn.wsId 1000 "Server shutting down"]
    | none => []
  ({ st with connection := none, pendingRequests := [],
             serverRunning := false },
   rejectAllEffects st.pendingRequests .shuttingDown ++ closeEffects ++
     [Effect.stopServer])

/-- `onEvent`: register one more observer. -/
def onEvent (st : BridgeState) : BridgeState :=
  { st with eventHandlers := st.eventHandlers + 1 }

/-! ## Tool registry and dispatcher (`src/tools/index.ts`)

`registerTools` installs every tool exactly once into a `Map`; only the
name and the `requiresPlugin` flag matter to the dispatch claims
(descriptions and input schemas are carried on the wire, never branched
on), so the registry is embedded as the name → requiresPlugin map in exact
registration order. -/

/-- The registry built by `registerTools`, in registration order:
`definePluginTool` entries carry `requiresPlugin := true`,
`defineLocalTool` entries `requiresPlugin := false`. -/
def toolRegistry : List (String × Bool) :=
  [("query_descendants", true),
   ("get_children", true),
   ("get_instance_info", true),
   ("instance_exists", true),
   ("get_properties", true),
   ("set_property", true),
   ("get_attributes", true),
   ("set_attribute", true),
   ("delete_attribute", true),
   ("get_tags", true),
   ("add_tag", true),
   ("remove_tag", true),
   ("get_tagged_instances", true),
   ("get_selection", true),
   ("set_selection", true),
   ("create_collision_group", true),
   ("delete_collision_group", true),
   ("set_collision_group_collidable", true),
   ("get_collision_group_collidable", true),
   ("set_part_collision_group", true),
   ("create_instance", true),
   ("create_effect_preset", true),
   ("clone_instance", true),
   ("bulk_clone_instances", true),
   ("delete_instance", true),
   ("delete_instances", true),
   ("scale_instance", true),
   ("get_bounding_box", true),
   ("bulk_scale", true),
   ("bulk_set_color", true),
   ("bulk_set_color3_attribute", true),
   ("bulk_set_transparency", true),
   ("bulk_move", true),
   ("bulk_delete", true),
   ("get_effect_types", true),
   ("analyze_effect", true),
   ("get_bezier_curve", true),
   ("set_bezier_curve", true),
   ("bulk_set_attribute", true),
   ("bulk_set_property", true),
   ("bulk_create_instances", true),
   ("search_roblox_docs", false),
   ("get_roblox_description", false),
   ("get_roblox_class_docs", false),
   ("get_roblox_property_docs", false),
   ("get_roblox_enum_docs", false),
   ("list_roblox_globals", false),
   ("get_datatype_format", false),
   ("get_connection_status", false)]

/-- `isPluginTool`: `tools.get(name)?.requiresPlugin ?? false`. -/
def isPluginTool (name : String) : Bool :=
  (mapGet toolRegistry name).getD false

/-- The synchronous outcome of `handleToolCall` before any handler body
runs: either a thrown `Error` (with its message) or the decision to invoke
the named tool's handler (recording its `requiresPlugin` flag). -/
inductive ToolCallStep where
  | thrown (msg : String)
  | invokeHandler (requiresPlugin : Bool)
deriving Repr, DecidableEq

/-- `handleToolCall`: unknown names throw "Unknown tool: name"; a
plugin-requiring tool with no connection throws the requires-connection
error; otherwise the handler is invoked. -/
def handleToolCall (st : BridgeState) (name : String) : ToolCallStep :=
  match mapGet toolRegistry name with
  | none => .thrown ("Unknown tool: " ++ name)
  | some requiresPlugin =>
    if requiresPlugin && !(isConnected st) then
      .thrown ("Tool \"" ++ name ++
        "\" requires plugin connection. Plugin is not connected.")
    else
      .invokeHandler requiresPlugin

/-- The post-processing a `definePluginTool` handler applies to the
response its `sendRequest` promise resolved with: a response carrying an
error is re-thrown as "code: message", otherwise the handler returns the
response's result. -/
def pluginToolContinuation (resp : RespView) : Except String (Option Payload) :=
  match resp.error with
  | some e => .error (e.code ++ ": " ++ e.message)
  | none => .ok resp.result

/-- The disconnected-precondition message of the gateway in `src/index.ts`.
-/
def connectionLostMessage : String :=
  "VFX Forge plugin is not connected. Please ensure the plugin is running in Roblox Studio."

/-- What the MCP gateway hands back for one tool call: an error-tagged
payload (`{success:false, error:{code, message}}`, `isError: true`), or the
start of the named handler (a plugin handler's synchronous part is the
`sendRequest` reaction; a local handler does not touch bridge state). -/
inductive GatewayOutcome where
  | errorResult (code : String) (message : String)
  | handlerStarted (requiresPlugin : Bool)
deriving Repr, DecidableEq

/-- The `CallToolRequestSchema` handler of `src/index.ts`: a plugin tool
invoked while disconnected is answered with a `CONNECTION_LOST` error
payload before `handleToolCall` runs; a thrown `handleToolCall` error is
caught and wrapped with code `OPERATION_FAILED`; otherwise the tool's
handler runs (for a plugin tool, issuing exactly one `sendRequest`). -/
def callToolRequest (st : BridgeState) (name : String) (args : Params)
    (now : Nat) (sendFails : Bool) (sendErr : String) :
    BridgeState × List Effect × GatewayOutcome :=
  if isPluginTool name && !(isConnected st) then
    (st, [], .errorResult "CONNECTION_LOST" connectionLostMessage)
  else
    match handleToolCall st name with
    | .thrown msg => (st, [], .errorResult "OPERATION_FAILED" msg)
    | .invokeHandler true =>
      let (st', effs) := sendRequest st name args now sendFails sendErr
      (st', effs, .handlerStarted true)
    | .invokeHandler false => (st, [], .handlerStarted false)

/-! ## Documentation lookups (`src/docs/roblox-docs.ts`)

The lookups walk the `Superclass` chain of the API dump with no depth or
visited-set guard.  The recursion is embedded fuel-indexed: `none` means
the fuel ran out (the source recursion would still be running), `some r`
means the source returns `r`.  The `apiDocs` enrichment (description
strings, links, security parsing) reads flat maps and never recurses, so
those output fields are elided; the fields that steer the recursion —
`Name`, `Superclass`, `MemberType`, member `Name` — are kept exactly. -/

/-- One API-dump class member; `memberType` is the discriminant the source
matches on ("Property" | "Function" | "Event" | "Callback").  `valueType`
is the property value type name, `parameters`/`returnType` the
function/event signature. -/
structure DumpMember where
  memberType : String
  name : String
  valueType : String := ""
  parameters : List (String × String) := []
  returnType : String := ""
  tags : List String := []
deriving Repr, DecidableEq

/-- One API-dump class: `Name`, `Superclass` (the root sentinel is
`"<<<ROOT>>>"`), `Tags`, `Members`. -/
structure DumpClass where
  name : String
  superclass : String
  tags : List String := []
  members : List DumpMember := []
deriving Repr, DecidableEq

/-- The documentation snapshot the lookups read (the `apiDump.Classes`
array of `RobloxDocsCache`). -/
structure DocsCache where
  classes : List DumpClass
deriving Repr, DecidableEq

/-- `cache.apiDump.Classes.find((c) => c.Name === className)`. -/
def findClass (cache : DocsCache) (className : String) : Option DumpClass :=
  cache.classes.find? (fun c => c.name = className)

/-- `classData.Superclass && classData.Superclass !== "<<<ROOT>>>"` — the
guard on the recursive fallback (an empty string is falsy in JS). -/
def superRecurses (cd : DumpClass) : Bool :=
  cd.superclass ≠ "" && cd.superclass ≠ "<<<ROOT>>>"

/-- Property documentation as returned by `getPropertyDocs` (the
`apiDocs`-derived description fields elided). -/
structure PropertyDoc where
  name : String
  valueType : String
  tags : List String
deriving Repr, DecidableEq

/-- Method documentation as returned by `getMethodDocs` (description
fields elided). -/
structure MethodDoc where
  name : String
  parameters : List (String × String)
  returnType : String
  tags : List String
deriving Repr, DecidableEq

/-- Event documentation as returned by `getEventDocs` (description fields
elided). -/
structure EventDoc where
  name : String
  parameters : List (String × String)
  tags : List String
deriving Repr, DecidableEq

/-- Class documentation as returned by `getClassDocs` (description fields
elided). -/
structure ClassDoc where
  name : String
  superclass : String
  tags : List String
  properties : List PropertyDoc
  methods : List MethodDoc
  events : List EventDoc
deriving Repr, DecidableEq

/-- `getPropertyDocs`, fuel-indexed: look the class up, find the property
member, and on a miss recurse into the superclass; outer `none` = fuel
exhausted, `some none` = source returns `null`. -/
def getPropertyDocsFuel (cache : DocsCache) :
    Nat → String → String → Option (Option PropertyDoc)
  | 0, _, _ => none
  | fuel + 1, className, propertyName =>
    match findClass cache className with
    | none => some none
    | some classData =>
      match classData.members.find?
          (fun m => m.memberType == "Property" && m.name == propertyName) with
      | some propMember =>
        some (some { name := propMember.name,
                     valueType := propMember.valueType,
                     tags := propMember.tags })
      | none =>
        if superRecurses classData then
          getPropertyDocsFuel cache fuel classData.superclass propertyName
        else
          some none

/-- `getMethodDocs`, fuel-indexed (same shape as `getPropertyDocsFuel`
with `MemberType === "Function"`). -/
def getMethodDocsFuel (cache : DocsCache) :
    Nat → String → String → Option (Option MethodDoc)
  | 0, _, _ => none
  | fuel + 1, className, methodName =>
    match findClass cache className with
    | none => some none
    | some classData =>
      match classData.members.find?
          (fun m => m.memberType == "Function" && m.name == methodName) with
      | some funcMember =>
        some (some { name := funcMember.name,
                     parameters := funcMember.parameters,
                     returnType := funcMember.returnType,
                     tags := funcMember.tags })
      | none =>
        if superRecurses classData then
          getMethodDocsFuel cache fuel classData.superclass methodName
        else
          some none

/-- `getEventDocs`, fuel-indexed (same shape with
`MemberType === "Event"`). -/
def getEventDocsFuel (cache : DocsCache) :
    Nat → String → String → Option (Option EventDoc)
  | 0, _, _ => none
  | fuel + 1, className, eventName =>
    match findClass cache className with
    | none => some none
    | some classData =>
      match classData.members.find?
          (fun m => m.memberType == "Event" && m.name == eventName) with
      | some eventMember =>
        some (some { name := eventMember.name,
                     parameters := eventMember.parameters,
                     tags := eventMember.tags })
      | none =>
        if superRecurses classData then
          getEventDocsFuel cache fuel classData.superclass eventName
        else
          some none

/-- The class's own members, reshaped as `getClassDocs` does before the
inherited block. -/
def ownPropertyDocs (cd : DumpClass) : List PropertyDoc :=
  (cd.members.filter (fun m => m.memberType = "Property")).map
    (fun m => { name := m.name, valueType := m.valueType, tags := m.tags })

/-- The class's own methods, reshaped as `getClassDocs` does. -/
def ownMethodDocs (cd : DumpClass) : List MethodDoc :=
  (cd.members.filter (fun m => m.memberType = "Function")).map
    (fun m => { name := m.name, parameters := m.parameters,
                returnType := m.returnType, tags := m.tags })

/-- The class's own events, reshaped as `getClassDocs` does. -/
def ownEventDocs (cd : DumpClass) : List EventDoc :=
  (cd.members.filter (fun m => m.memberType = "Event")).map
    (fun m => { name := m.name, parameters := m.parameters, tags := m.tags })

/-- `getClassDocs`, fuel-indexed: build the class's own member lists; when
`includeInherited` is set and the superclass guard passes, recurse into the
superclass and append its members tagged "Inherited". -/
def getClassDocsFuel (cache : DocsCache) :
    Nat → String → Bool → Option (Option ClassDoc)
  | 0, _, _ => none
  | fuel + 1, className, includeInherited =>
    match findClass cache className with
    | none => some none
    | some classData =>
      let properties := ownPropertyDocs classData
      let methods := ownMethodDocs classData
      let events := ownEventDocs classData
      if includeInherited && superRecurses classData then
        match getClassDocsFuel cache fuel classData.superclass true with
        | none => none
        | some parentDocs =>
          let (properties, methods, events) :=
            match parentDocs with
            | some pd =>
              (properties ++ pd.properties.map
                 (fun p => { p with tags := p.tags ++ ["Inherited"] }),
               methods ++ pd.methods.map
                 (fun m => { m with tags := m.tags ++ ["Inherited"] }),
               events ++ pd.events.map
                 (fun e => { e with tags := e.tags ++ ["Inherited"] }))
            | none => (properties, methods, events)
          some (some { name := classData.name,
                       superclass := classData.superclass,
                       tags := classData.tags,
                       properties := properties, methods := methods,
                       events := events })
      else
        some (some { name := classData.name,
                     superclass := classData.superclass,
                     tags := classData.tags,
                     properties := properties, methods := methods,
                     events := events })

/-- The superclass chain starting at `name` reaches, within `n` steps, an
absent class name or a class whose superclass guard fails (root sentinel or
empty) — the acyclicity bound for the lookups above. -/
def superEnds (cache : DocsCache) : Nat → String → Bool
  | 0, _ => false
  | n + 1, name =>
    match findClass cache name with
    | none => true
    | some cd =>
      if superRecurses cd then superEnds cache n cd.superclass
      else true

/-- A cache whose class "A" names itself as its superclass: following
superclass links from "A" never ends. -/
def cyclicCache : DocsCache :=
  { classes := [{ name := "A", superclass := "A", members := [] }] }

/-- A cache with an empty class list (vacuously acyclic). -/
def emptyCache : DocsCache := { classes := [] }

/-- The Connection installed by an upgrade on socket `newWs` at time
`now`: version "unknown" until a handshake arrives. -/
def newlyInstalled (newWs now : Nat) : PluginConnection :=
  { wsId := newWs, pluginVersion := "unknown", connectedAt := now }

/-- Extract the reason of a socket-close effect. -/
def closeReasonOf : Effect → Option String
  | .closeWs _ _ r => some r
  | _ => none

/-- A disconnected bridge state with an empty correlation table. -/
def stDisconnected : BridgeState :=
  { connection := none, pendingRequests := [], eventHandlers := 0,
    serverRunning := true, nextTimerId := 0, uuidCounter := 0 }

/-- A concrete installed connection on socket 1. -/
def connOne : PluginConnection :=
  { wsId := 1, pluginVersion := "1.2.0", connectedAt := 100 }

/-- `connOne` after a handshake reporting version "2.0.0". -/
def connOneV2 : PluginConnection :=
  { wsId := 1, pluginVersion := "2.0.0", connectedAt := 100 }

/-- A connected bridge state (socket 1) with one outstanding request for
method `get_children` under id `"id1"` with timer handle 5. -/
def stOnePending : BridgeState :=
  { connection := some { wsId := 1, pluginVersion := "1.2.0",
                         connectedAt := 100 },
    pendingRequests := [("id1", { method := "get_children", timerId := 5 })],
    eventHandlers := 1, serverRunning := true, nextTimerId := 6,
    uuidCounter := 3 }

/-- A connected bridge state (socket 1) with two outstanding requests. -/
def stTwoPending : BridgeState :=
  { connection := some { wsId := 1, pluginVersion := "1.2.0",
                         connectedAt := 100 },
    pendingRequests := [("id1", { method := "get_children", timerId := 5 }),
                        ("id2", { method := "get_properties", timerId := 7 })],
    eventHandlers := 2, serverRunning := true, nextTimerId := 8,
    uuidCounter := 4 }

/-- A concrete matching response envelope for request `"id1"`. -/
def respMsgOk : InboundMsg :=
  { type := "response", id := "id1", params := none,
    result := some "{ children: [] }", error := none, timestamp := 500 }

/-- A concrete handshake envelope carrying plugin version "2.0.0". -/
def handshakeMsg : InboundMsg :=
  { type := "handshake", id := "h1", params := some (some "2.0.0"),
    result := none, error := none, timestamp := 600 }

/-! ## Map lemmas -/

/-- A key outside the key list is unbound. -/
theorem mapGet_eq_none_of_not_mem {α : Type} (l : List (String × α))
    (k : String) (h : k ∉ l.map Prod.fst) : mapGet l k = none := by
  induction l with
  | nil => rfl
  | cons hd tl ih =>
    obtain ⟨k0, v0⟩ := hd
    simp only [List.map_cons, List.mem_cons] at h
    push_neg at h
    have hk0 : ¬(k0 = k) := fun e => h.1 e.symm
    simp only [mapGet, if_neg hk0]
    exact ih h.2

/-- Deleting a key unbinds it (in a duplicate-free map). -/
theorem mapGet_mapDelete_self {α : Type} (l : List (String × α))
    (k : String) (h : keysNodup l) : mapGet (mapDelete l k) k = none := by
  induction l with
  | nil => rfl
  | cons hd tl ih =>
    obtain ⟨k0, v0⟩ := hd
    simp only [keysNodup, List.map_cons, List.nodup_cons] at h
    by_cases hk : k0 = k
    · subst hk
      simp only [mapDelete, if_pos]
      exact mapGet_eq_none_of_not_mem tl k0 h.1
    · simp only [mapDelete, if_neg hk, mapGet, if_neg hk]
      exact ih h.2

/-- Deleting one key leaves every other key's binding unchanged. -/
theorem mapGet_mapDelete_ne {α : Type} (l : List (String × α))
    (k k' : String) (h : k' ≠ k) :
    mapGet (mapDelete l k) k' = mapGet l k' := by
  induction l with
  | nil => rfl
  | cons hd tl ih =>
    obtain ⟨k0, v0⟩ := hd
    by_cases hk : k0 = k
    · subst hk
      have hne : ¬(k0 = k') := fun e => h e.symm
      simp only [mapDelete, if_pos, mapGet, if_neg hne]
    · simp only [mapDelete, if_neg hk, mapGet]
      by_cases hk' : k0 = k'
      · simp only [if_pos hk']
      · simp only [if_neg hk', ih]

/-- Deleting a freshly inserted key restores the original map. -/
theorem mapDelete_mapSet_self {α : Type} (l : List (String × α))
    (k : String) (v : α) (h : mapGet l k = none) :
    mapDelete (mapSet l k v) k = l := by
  induction l with
  | nil => simp [mapSet, mapDelete]
  | cons hd tl ih =>
    obtain ⟨k0, v0⟩ := hd
    by_cases hk : k0 = k
    · rw [mapGet] at h
      simp [hk] at h
    · simp only [mapGet, if_neg hk] at h
      simp only [mapSet, if_neg hk, mapDelete, if_neg hk, ih h]

/-- Deleting a bound key shrinks the map by exactly one entry. -/
theorem length_mapDelete {α : Type} (l : List (String × α)) (k : String)
    (p : α) (h : mapGet l k = some p) :
    (mapDelete l k).length + 1 = l.length := by
  induction l with
  | nil => simp [mapGet] at h
  | cons hd tl ih =>
    obtain ⟨k0, v0⟩ := hd
    by_cases hk : k0 = k
    · simp only [mapDelete, if_pos hk, List.length_cons]
    · simp only [mapGet, if_neg hk] at h
      simp only [mapDelete, if_neg hk, List.length_cons, ih h]

/-- Every table entry contributes its clear-timer and reject effects to the
bulk-rejection effect list. -/
theorem mem_rejectAllEffects (entries : List (String × PendingRequest))
    (e : BridgeError) (id : String) (p : PendingRequest)
    (h : (id, p) ∈ entries) :
    Effect.clearTimer p.timerId ∈ rejectAllEffects entries e ∧
    Effect.rejectRequest id e ∈ rejectAllEffects entries e := by
  induction entries with
  | nil => cases h
  | cons hd tl ih =>
    obtain ⟨id0, p0⟩ := hd
    simp only [rejectAllEffects]
    rcases List.mem_cons.mp h with heq | htl
    · injection heq with hid hp
      subst hid; subst hp
      exact ⟨List.mem_cons_self _ _,
             List.mem_cons_of_mem _ (List.mem_cons_self _ _)⟩
    · obtain ⟨h1, h2⟩ := ih htl
      exact ⟨List.mem_cons_of_mem _ (List.mem_cons_of_mem _ h1),
             List.mem_cons_of_mem _ (List.mem_cons_of_mem _ h2)⟩

/-! ## Substring lemmas -/

/-- A list leads itself. -/
theorem listLeads_self (l : List Char) : listLeads l l = true := by
  induction l with
  | nil => rfl
  | cons c rest ih => simp [listLeads, ih]

/-- A list occurs in itself. -/
theorem subSeq_self (pat : List Char) : subSeq pat pat = true := by
  cases pat with
  | nil => rfl
  | cons c rest => simp [subSeq, listLeads_self]

/-- An occurrence survives prepending. -/
theorem subSeq_append (pat a l : List Char) (h : subSeq pat l = true) :
    subSeq pat (a ++ l) = true := by
  induction a with
  | nil => simpa using h
  | cons c rest ih => simp [subSeq, ih]

/-- The right half of a concatenation occurs in it. -/
theorem strContains_append_right (a b : String) :
    strContains (a ++ b) b = true := by
  unfold strContains
  rw [String.data_append]
  exact subSeq_append b.data a.data b.data (subSeq_self b.data)

/-! ## Reduction helpers for `handleMessage` -/

/-- `handleMessage` on a response envelope, reduced to the table match. -/
theorem handleMessage_response (st : BridgeState) (msg : InboundMsg)
    (ws : Nat) (h : msg.type = "response") :
    handleMessage st msg ws =
      match mapGet st.pendingRequests msg.id with
      | some pending =>
        ({ st with pendingRequests := mapDelete st.pendingRequests msg.id },
         [Effect.clearTimer pending.timerId,
          Effect.resolveRequest msg.id (respView msg)])
      | none => (st, []) := by
  unfold handleMessage
  rw [h, if_neg (by decide), if_pos rfl]

/-! ## Claim theorems -/

/-- C1: dispatching a tool registered with `requiresPlugin = true` while the
Connection Slot is empty (`isConnected` false) is answered with a
`CONNECTION_LOST` error payload before any handler is invoked: the gateway
returns the same bridge state (so the uuid counter — no id generated — the
timer counter — no timer allocated — and the correlation table — size
unchanged — are untouched) and produces no effects; the bridge-level
`sendRequest` precondition likewise rejects with the not-connected condition
without touching the state. -/
theorem plugin_tool_disconnected_dispatch (st : BridgeState) (name : String)
    (args : Params) (now : Nat) (sendFails : Bool) (sendErr : String)
    (hplugin : isPluginTool name = true) (hdisc : isConnected st = false) :
    callToolRequest st name args now sendFails sendErr =
      (st, [], .errorResult "CONNECTION_LOST" connectionLostMessage) ∧
    sendRequest st name args now sendFails sendErr =
      (st, [Effect.rejectCaller .notConnected]) := by
  have hconn : st.connection = none := by
    cases h : st.connection with
    | none => rfl
    | some c =>
      unfold isConnected at hdisc
      rw [h] at hdisc
      cases hdisc
  constructor
  · simp [callToolRequest, hplugin, hdisc]
  · simp [sendRequest, hconn]

/-- C1 witness: the `get_children` plugin tool dispatched against a
disconnected bridge. -/
theorem plugin_tool_disconnected_dispatch_witness :
    callToolRequest stDisconnected "get_children" [] 0 false "" =
      (stDisconnected, [],
       .errorResult "CONNECTION_LOST" connectionLostMessage) :=
  (plugin_tool_disconnected_dispatch stDisconnected "get_children" [] 0
    false "" (by decide) (by decide)).1

/-- C9: dispatching a name that is not in the registry is answered with the
"Unknown tool" error (wrapped by the gateway as `OPERATION_FAILED`), no
handler runs and the state is untouched — and since an unregistered name is
not a plugin tool (`isPluginTool` is false), this holds in every connection
state, disconnected included, without producing the `CONNECTION_LOST`
precondition failure. -/
theorem unknown_tool_dispatch (st : BridgeState) (name : String)
    (args : Params) (now : Nat) (sendFails : Bool) (sendErr : String)
    (h : mapGet toolRegistry name = none) :
    callToolRequest st name args now sendFails sendErr =
      (st, [], .errorResult "OPERATION_FAILED" ("Unknown tool: " ++ name)) ∧
    isPluginTool name = false := by
  have hp : isPluginTool name = false := by
    unfold isPluginTool
    rw [h]
    rfl
  refine ⟨?_, hp⟩
  simp [callToolRequest, hp, handleToolCall, h]

/-- C9 witness: an unregistered name dispatched while disconnected. -/
theorem unknown_tool_dispatch_witness :
    callToolRequest stDisconnected "make_coffee" [] 0 false "" =
      (stDisconnected, [],
       .errorResult "OPERATION_FAILED" "Unknown tool: make_coffee") :=
  (unknown_tool_dispatch stDisconnected "make_coffee" [] 0 false ""
    (by decide)).1

/-- C2: an inbound envelope of kind `response` whose id matches a table
entry cancels that entry's timer, removes the entry, and resolves the
pending promise with the response; the plugin-tool continuation then yields
the envelope's result when the envelope has no error, and rethrows the
structured error (code and message) when it does. -/
theorem matched_response_resolution (st : BridgeState) (msg : InboundMsg)
    (ws : Nat) (p : PendingRequest) (htype : msg.type = "response")
    (hpend : mapGet st.pendingRequests msg.id = some p) :
    handleMessage st msg ws =
      ({ st with pendingRequests := mapDelete st.pendingRequests msg.id },
       [Effect.clearTimer p.timerId,
        Effect.resolveRequest msg.id (respView msg)]) ∧
    (msg.error = none →
      pluginToolContinuation (respView msg) = .ok msg.result) ∧
    (∀ e, msg.error = some e →
      pluginToolContinuation (respView msg) =
        .error (e.code ++ ": " ++ e.message)) := by
  refine ⟨?_, ?_, ?_⟩
  · rw [handleMessage_response st msg ws htype, hpend]
  · intro he
    simp [pluginToolContinuation, respView, he]
  · intro e he
    simp [pluginToolContinuation, respView, he]

/-- C2 witness: a matching error-free response for the pending
`get_children` request resolves it with its result. -/
theorem matched_response_resolution_witness :
    handleMessage stOnePending respMsgOk 1 =
      ({ stOnePending with pendingRequests := [] },
       [Effect.clearTimer 5, Effect.resolveRequest "id1" (respView respMsgOk)]) ∧
    pluginToolContinuation (respView respMsgOk) =
      .ok (some "{ children: [] }") := by
  have h := matched_response_resolution stOnePending respMsgOk 1
    { method := "get_children", timerId := 5 } (by decide) (by decide)
  exact ⟨h.1.trans (by decide), h.2.1 (by decide)⟩

/-- C8: a handshake message arriving on the installed connection's own
socket (with a params object present) updates only the slot's
remote-version field: the socket handle and establishment timestamp are
kept, the correlation table, event observers and every other state field
are unchanged, and no effect — in particular no response — is produced. -/
theorem handshake_updates_only_version (st : BridgeState) (msg : InboundMsg)
    (ws : Nat) (conn : PluginConnection) (pv : Option String)
    (htype : msg.type = "handshake") (hconn : st.connection = some conn)
    (hws : conn.wsId = ws) (hparams : msg.params = some pv) :
    handleMessage st msg ws =
      ({ st with connection := some { conn with
          pluginVersion := handshakeVersion pv } }, []) := by
  simp [handleMessage, htype, hconn, hparams, hws]

/-- C8 witness: a handshake carrying version "2.0.0" on socket 1 updates
the installed connection's version and nothing else. -/
theorem handshake_updates_only_version_witness :
    handleMessage stOnePending handshakeMsg 1 =
      ({ stOnePending with connection := some connOneV2 }, []) :=
  (handshake_updates_only_version stOnePending handshakeMsg 1 connOne
    (some "2.0.0") (by decide) (by decide) (by decide)
    (by decide)).trans (by decide)

/-- C3: when the active Connection is lost — a close event on the active
socket, or an explicit shutdown — every entry remaining in the correlation
table is rejected (with the connection-loss condition, resp. the
"shutting down" condition) and its timer cancelled, and the table is left
empty; shutdown additionally clears the slot, closes the connection with
code 1000, and stops the listening server.  The model has no clock, so
this holds for every table contents whatever the entries' ages. -/
theorem connection_loss_bulk_rejection (st : BridgeState)
    (conn : PluginConnection) (ws : Nat)
    (hconn : st.connection = some conn) (hws : conn.wsId = ws) :
    wsClose st ws =
      ({ st with connection := none, pendingRequests := [] },
       rejectAllEffects st.pendingRequests .connectionLost) ∧
    (∀ id p, (id, p) ∈ st.pendingRequests →
      Effect.clearTimer p.timerId ∈ (wsClose st ws).2 ∧
      Effect.rejectRequest id .connectionLost ∈ (wsClose st ws).2) ∧
    shutdown st =
      ({ st with connection := none, pendingRequests := [],
                 serverRunning := false },
       rejectAllEffects st.pendingRequests .shuttingDown ++
         [Effect.closeWs conn.wsId 1000 "Server shutting down",
          Effect.stopServer]) ∧
    (∀ id p, (id, p) ∈ st.pendingRequests →
      Effect.clearTimer p.timerId ∈ (shutdown st).2 ∧
      Effect.rejectRequest id .shuttingDown ∈ (shutdown st).2) ∧
    errMessage .connectionLost = "Connection lost" ∧
    strContains (errMessage .shuttingDown) "shutting down" = true := by
  have hclose : wsClose st ws =
      ({ st with connection := none, pendingRequests := [] },
       rejectAllEffects st.pendingRequests .connectionLost) := by
    simp [wsClose, hconn, hws]
  have hshut : shutdown st =
      ({ st with connection := none, pendingRequests := [],
                 serverRunning := false },
       rejectAllEffects st.pendingRequests .shuttingDown ++
         [Effect.closeWs conn.wsId 1000 "Server shutting down",
          Effect.stopServer]) := by
    simp [shutdown, hconn]
  refine ⟨hclose, ?_, hshut, ?_, rfl, by decide⟩
  · intro id p hmem
    rw [hclose]
    exact mem_rejectAllEffects st.pendingRequests .connectionLost id p hmem
  · intro id p hmem
    rw [hshut]
    have h := mem_rejectAllEffects st.pendingRequests .shuttingDown id p hmem
    exact ⟨List.mem_append_left _ h.1, List.mem_append_left _ h.2⟩

/-- C3 witness: a close event on the active socket with two outstanding
requests rejects both and empties the table, and shutdown rejects the
second request with the shutting-down condition. -/
theorem connection_loss_bulk_rejection_witness :
    wsClose stTwoPending 1 =
      ({ stTwoPending with connection := none, pendingRequests := [] },
       [Effect.clearTimer 5, Effect.rejectRequest "id1" .connectionLost,
        Effect.clearTimer 7, Effect.rejectRequest "id2" .connectionLost]) ∧
    Effect.rejectRequest "id2" .shuttingDown ∈ (shutdown stTwoPending).2 := by
  have h := connection_loss_bulk_rejection stTwoPending connOne 1
    (by decide) (by decide)
  exact ⟨h.1.trans (by decide),
    (h.2.2.2.1 "id2" { method := "get_properties", timerId := 7 }
      (by decide)).2⟩

/-- C4: a table entry is removed at most once, and a response envelope
whose id is not (or no longer) in the table is dropped silently.  In a
duplicate-free table (the JS `Map` invariant): an unmatched response leaves
the state untouched and produces no effects; a matched response unbinds its
id, leaves every other binding and the observer registry untouched,
shrinks the table by exactly one entry, and handling the same response
again is a silent drop — so no continuation is ever resolved or rejected
twice. -/
theorem response_id_removed_once (st : BridgeState) (msg : InboundMsg)
    (ws : Nat) (htype : msg.type = "response")
    (hnd : keysNodup st.pendingRequests) :
    (mapGet st.pendingRequests msg.id = none →
      handleMessage st msg ws = (st, [])) ∧
    (∀ p, mapGet st.pendingRequests msg.id = some p →
      mapGet (handleMessage st msg ws).1.pendingRequests msg.id = none ∧
      (∀ k, k ≠ msg.id →
        mapGet (handleMessage st msg ws).1.pendingRequests k =
          mapGet st.pendingRequests k) ∧
      (handleMessage st msg ws).1.eventHandlers = st.eventHandlers ∧
      mapSize (handleMessage st msg ws).1.pendingRequests + 1 =
        mapSize st.pendingRequests ∧
      handleMessage (handleMessage st msg ws).1 msg ws =
        ((handleMessage st msg ws).1, [])) := by
  constructor
  · intro hnone
    rw [handleMessage_response st msg ws htype, hnone]
  · intro p hsome
    have hst : (handleMessage st msg ws).1 =
        { st with pendingRequests := mapDelete st.pendingRequests msg.id } := by
      rw [handleMessage_response st msg ws htype, hsome]
    rw [hst]
    refine ⟨mapGet_mapDelete_self _ _ hnd,
      fun k hk => mapGet_mapDelete_ne _ _ _ hk, rfl,
      length_mapDelete _ _ p hsome, ?_⟩
    rw [handleMessage_response _ msg ws htype]
    have hgone :
        mapGet ({ st with
            pendingRequests := mapDelete st.pendingRequests msg.id } :
          BridgeState).pendingRequests msg.id = none :=
      mapGet_mapDelete_self _ _ hnd
    rw [hgone]

/-- C4 witness: resolving `"id1"` out of a two-entry table shrinks it by
one, and handling the same response again is a silent no-op. -/
theorem response_id_removed_once_witness :
    mapSize (handleMessage stTwoPending respMsgOk 1).1.pendingRequests + 1 =
      mapSize stTwoPending.pendingRequests ∧
    handleMessage (handleMessage stTwoPending respMsgOk 1).1 respMsgOk 1 =
      ((handleMessage stTwoPending respMsgOk 1).1, []) := by
  have h := (response_id_removed_once stTwoPending respMsgOk 1 (by decide)
    (by decide)).2 { method := "get_children", timerId := 5 } (by decide)
  exact ⟨h.2.2.2.1, h.2.2.2.2⟩

/-- C5 counterexample: the claim says the timeout rejection names both the
method and the window duration; at the concrete pending `get_children`
request the fired timeout rejects with exactly
"Request timeout: get_children", which names the method but nowhere the
30000 ms window (`REQUEST_TIMEOUT_MS`). -/
theorem timeout_rejection_without_duration_cex :
    (fireTimeout stOnePending "id1" "get_children").1.pendingRequests = [] ∧
    (fireTimeout stOnePending "id1" "get_children").2 =
      [Effect.rejectRequest "id1" (.requestTimeout "get_children")] ∧
    errMessage (.requestTimeout "get_children") =
      "Request timeout: get_children" ∧
    strContains (errMessage (.requestTimeout "get_children"))
      "get_children" = true ∧
    toString REQUEST_TIMEOUT_MS = "30000" ∧
    strContains (errMessage (.requestTimeout "get_children"))
      "30000" = false := by
  refine ⟨by decide, by decide, by decide, by decide, by decide, by decide⟩

/-- C5 (amended): if no matching response has arrived when the fixed-window
timer fires, the entry is removed from the table and its continuation is
rejected with a timeout condition naming the request's method — but not
the window duration, which the message omits. -/
theorem timeout_removes_and_names_method (st : BridgeState) (id : String)
    (p : PendingRequest) (_hpend : mapGet st.pendingRequests id = some p)
    (hnd : keysNodup st.pendingRequests) :
    fireTimeout st id p.method =
      ({ st with pendingRequests := mapDelete st.pendingRequests id },
       [Effect.rejectRequest id (.requestTimeout p.method)]) ∧
    mapGet (fireTimeout st id p.method).1.pendingRequests id = none ∧
    strContains (errMessage (.requestTimeout p.method)) p.method = true := by
  refine ⟨rfl, ?_, ?_⟩
  · exact mapGet_mapDelete_self _ _ hnd
  · exact strContains_append_right "Request timeout: " p.method

/-- C5 witness: the `get_children` timeout at the concrete one-entry table.
-/
theorem timeout_removes_and_names_method_witness :
    fireTimeout stOnePending "id1" "get_children" =
      ({ stOnePending with pendingRequests := [] },
       [Effect.rejectRequest "id1" (.requestTimeout "get_children")]) ∧
    strContains (errMessage (.requestTimeout "get_children"))
      "get_children" = true := by
  have h := timeout_removes_and_names_method stOnePending "id1"
    { method := "get_children", timerId := 5 } (by decide) (by decide)
  exact ⟨h.1.trans (by decide), h.2.2⟩

/-- C6 counterexample: the claim says the prior connection is closed with
reason "superseded"; at a concrete state with an installed connection, the
only close issued by a new upgrade carries the reason
"New connection established", which is not "superseded". -/
theorem supersede_reason_cex :
    (wsOpen stOnePending 2 200).2.filterMap closeReasonOf =
      ["New connection established"] ∧
    (∀ r ∈ (wsOpen stOnePending 2 200).2.filterMap closeReasonOf,
      r ≠ "superseded") := by decide

/-- C6 (amended): upgrading a new inbound connection while one is installed
closes the prior connection with the graceful close code 1000 and the
reason "New connection established" (the supersession notice — the literal
reason string is not "superseded"), then installs the new Connection and
sends it the welcome notice; afterwards the slot holds only the second
connection (fresh metadata, `isConnected` true). -/
theorem second_connection_supersedes (st : BridgeState)
    (conn : PluginConnection) (newWs now : Nat)
    (hconn : st.connection = some conn) :
    wsOpen st newWs now =
      ({ st with connection := some (newlyInstalled newWs now) },
       [Effect.closeWs conn.wsId 1000 "New connection established",
        Effect.sendWs newWs (.welcome "0.1.0" now)]) ∧
    isConnected (wsOpen st newWs now).1 = true ∧
    (wsOpen st newWs now).1.connection =
      some (newlyInstalled newWs now) := by
  have h : wsOpen st newWs now =
      ({ st with connection := some (newlyInstalled newWs now) },
       [Effect.closeWs conn.wsId 1000 "New connection established",
        Effect.sendWs newWs (.welcome "0.1.0" now)]) := by
    simp [wsOpen, hconn, newlyInstalled]
  refine ⟨h, ?_, ?_⟩
  · rw [h]
    rfl
  · rw [h]

/-- C6 witness: a second upgrade (socket 2) over the installed socket 1.
-/
theorem second_connection_supersedes_witness :
    wsOpen stOnePending 2 200 =
      ({ stOnePending with connection := some (newlyInstalled 2 200) },
       [Effect.closeWs 1 1000 "New connection established",
        Effect.sendWs 2 (.welcome "0.1.0" 200)]) :=
  (second_connection_supersedes stOnePending connOne 2 200 (by decide)).1

/-- C7: when a Connection is installed but the send throws synchronously,
the already-started timer is cancelled, the just-inserted entry is removed
— leaving the correlation table exactly as before the call — and the send
failure is surfaced immediately as its own condition, a constructor
distinct from every timeout condition. -/
theorem send_failure_atomic_rollback (st : BridgeState)
    (conn : PluginConnection) (method : String) (params : Params)
    (now : Nat) (sendErr : String) (hconn : st.connection = some conn)
    (hfresh : mapGet st.pendingRequests (freshId st) = none) :
    (sendRequest st method params now true sendErr).1.pendingRequests =
      st.pendingRequests ∧
    (sendRequest st method params now true sendErr).2 =
      [Effect.clearTimer st.nextTimerId,
       Effect.rejectRequest (freshId st) (.sendFailure sendErr)] ∧
    (∀ m, BridgeError.sendFailure sendErr ≠ .requestTimeout m) := by
  have heq : sendRequest st method params now true sendErr =
      ({ st with uuidCounter := st.uuidCounter + 1,
                 nextTimerId := st.nextTimerId + 1,
                 pendingRequests :=
                   mapDelete (mapSet st.pendingRequests (freshId st)
                     { method := method, timerId := st.nextTimerId })
                     (freshId st) },
       [Effect.clearTimer st.nextTimerId,
        Effect.rejectRequest (freshId st) (.sendFailure sendErr)]) := by
    simp [sendRequest, hconn]
  rw [heq]
  exact ⟨mapDelete_mapSet_self _ _ _ hfresh, rfl,
    fun m h => BridgeError.noConfusion h⟩

/-- C7 witness: a failing send on the connected one-entry state leaves its
table exactly as it was. -/
theorem send_failure_atomic_rollback_witness :
    (sendRequest stOnePending "get_children" [] 0 true "ws send failed").1.pendingRequests =
      stOnePending.pendingRequests ∧
    (sendRequest stOnePending "get_children" [] 0 true "ws send failed").2 =
      [Effect.clearTimer 6,
       Effect.rejectRequest "uuid-3" (.sendFailure "ws send failed")] := by
  have h := send_failure_atomic_rollback stOnePending connOne "get_children"
    [] 0 "ws send failed" (by decide) (by decide)
  exact ⟨h.1, h.2.1.trans (by decide)⟩

/-! ## Termination of the inherited-fallback lookups -/

/-- Enough fuel for a terminating superclass chain makes the property
lookup defined. -/
theorem getPropertyDocsFuel_isSome (cache : DocsCache) :
    ∀ n name propertyName, superEnds cache n name = true →
      (getPropertyDocsFuel cache n name propertyName).isSome := by
  intro n
  induction n with
  | zero =>
    intro name pn h
    cases h
  | succ n ih =>
    intro name pn h
    simp only [superEnds] at h
    simp only [getPropertyDocsFuel]
    cases hf : findClass cache name with
    | none => simp [hf]
    | some cd =>
      simp only [hf] at h
      cases hm : cd.members.find?
          (fun m => m.memberType == "Property" && m.name == pn) with
      | some pm => simp [hm]
      | none =>
        simp only [hm]
        by_cases hs : superRecurses cd = true
        · simp only [hs, if_true] at h ⊢
          exact ih cd.superclass pn h
        · have hs' : superRecurses cd = false := by
            simpa using hs
          simp [hs']

/-- Enough fuel for a terminating superclass chain makes the method lookup
defined. -/
theorem getMethodDocsFuel_isSome (cache : DocsCache) :
    ∀ n name methodName, superEnds cache n name = true →
      (getMethodDocsFuel cache n name methodName).isSome := by
  intro n
  induction n with
  | zero =>
    intro name mn h
    cases h
  | succ n ih =>
    intro name mn h
    simp only [superEnds] at h
    simp only [getMethodDocsFuel]
    cases hf : findClass cache name with
    | none => simp [hf]
    | some cd =>
      simp only [hf] at h
      cases hm : cd.members.find?
          (fun m => m.memberType == "Function" && m.name == mn) with
      | some fm => simp [hm]
      | none =>
        simp only [hm]
        by_cases hs : superRecurses cd = true
        · simp only [hs, if_true] at h ⊢
          exact ih cd.superclass mn h
        · have hs' : superRecurses cd = false := by
            simpa using hs
          simp [hs']

/-- Enough fuel for a terminating superclass chain makes the event lookup
defined. -/
theorem getEventDocsFuel_isSome (cache : DocsCache) :
    ∀ n name eventName, superEnds cache n name = true →
      (getEventDocsFuel cache n name eventName).isSome := by
  intro n
  induction n with
  | zero =>
    intro name en h
    cases h
  | succ n ih =>
    intro name en h
    simp only [superEnds] at h
    simp only [getEventDocsFuel]
    cases hf : findClass cache name with
    | none => simp [hf]
    | some cd =>
      simp only [hf] at h
      cases hm : cd.members.find?
          (fun m => m.memberType == "Event" && m.name == en) with
      | some em => simp [hm]
      | none =>
        simp only [hm]
        by_cases hs : superRecurses cd = true
        · simp only [hs, if_true] at h ⊢
          exact ih cd.superclass en h
        · have hs' : superRecurses cd = false := by
            simpa using hs
          simp [hs']

/-- Enough fuel for a terminating superclass chain makes the
inheritance-including class lookup defined. -/
theorem getClassDocsFuel_isSome (cache : DocsCache) :
    ∀ n name, superEnds cache n name = true →
      (getClassDocsFuel cache n name true).isSome := by
  intro n
  induction n with
  | zero =>
    intro name h
    cases h
  | succ n ih =>
    intro name h
    simp only [superEnds] at h
    simp only [getClassDocsFuel]
    cases hf : findClass cache name with
    | none => simp [hf]
    | some cd =>
      simp only [hf] at h
      by_cases hs : superRecurses cd = true
      · simp only [hs, if_true] at h
        simp only [hs, Bool.true_and, if_true]
        cases hg : getClassDocsFuel cache n cd.superclass true with
        | none =>
          have := ih cd.superclass h
          rw [hg] at this
          cases this
        | some pd => simp [hg]
      · have hs' : superRecurses cd = false := by
          simpa using hs
        simp [hs']

/-- On the self-looping cache the property lookup exhausts any amount of
fuel: the unguarded recursion never terminates. -/
theorem cyclic_property_lookup_diverges :
    ∀ f, getPropertyDocsFuel cyclicCache f "A" "P" = none := by
  intro f
  induction f with
  | zero => rfl
  | succ f ih =>
    simp only [getPropertyDocsFuel]
    simpa [findClass, cyclicCache, superRecurses] using ih

/-- C10: whenever following `Superclass` links from any class eventually
reaches the root sentinel or an absent class name (`superEnds` holds at
every name for some bound), the inherited-fallback lookups
`getPropertyDocs`, `getMethodDocs`, `getEventDocs` and `getClassDocs` with
inheritance enabled all terminate (some fuel suffices); and the recursion
carries no depth or visited-set guard, so on the self-looping cache the
lookup consumes every amount of fuel — termination holds only under the
acyclicity precondition. -/
theorem docs_lookup_termination (cache : DocsCache)
    (hac : ∀ name, ∃ n, superEnds cache n name = true)
    (className memberName : String) :
    (∃ f, (getPropertyDocsFuel cache f className memberName).isSome) ∧
    (∃ f, (getMethodDocsFuel cache f className memberName).isSome) ∧
    (∃ f, (getEventDocsFuel cache f className memberName).isSome) ∧
    (∃ f, (getClassDocsFuel cache f className true).isSome) ∧
    (∀ f, getPropertyDocsFuel cyclicCache f "A" "P" = none) := by
  obtain ⟨n, hn⟩ := hac className
  exact ⟨⟨n, getPropertyDocsFuel_isSome cache n className memberName hn⟩,
         ⟨n, getMethodDocsFuel_isSome cache n className memberName hn⟩,
         ⟨n, getEventDocsFuel_isSome cache n className memberName hn⟩,
         ⟨n, getClassDocsFuel_isSome cache n className hn⟩,
         cyclic_property_lookup_diverges⟩

/-- C10 witness: the acyclicity hypothesis discharged at the concrete
empty cache (every chain ends in one step at an absent class name). -/
theorem docs_lookup_termination_witness :
    ∃ f, (getPropertyDocsFuel emptyCache f "Part" "Size").isSome :=
  (docs_lookup_termination emptyCache (fun _ => ⟨1, rfl⟩) "Part" "Size").1

end VfxForge
